import Mathlib

/-!
Shallow embedding of `src/app_web.py` (the "pasi" relay application):
the bounded message ledger with media eviction (`trim_old_messages`,
`new_message`), the persisted-settings writer (`save_messages`), the image
and video redaction pipelines (`process_image_blur_and_watermark`,
`process_video_blur_and_watermark`) with their rectangle clamping, the
Telegram session bootstrap (`ensure_tg_client`) and the login confirmation
step (`do_login`).  Pure data is translated directly; filesystem and
network effects are made explicit as state passing and event traces.
-/

namespace Pasi

/-! ### Path constants and helpers (app_web.py lines 34-45, 306, 328) -/

/-- `DATA_DIR` (`os.path.join(BASE_DIR, "data")`), modelled as a fixed
absolute path string. -/
def DATA_DIR : String := "/app/data"

/-- `APP_DATA_DIR = DATA_DIR` (line 36). -/
def APP_DATA_DIR : String := DATA_DIR

/-- `TEMP_DIR` (line 37). -/
def TEMP_DIR : String := "/app/data/temp"

/-- `MESSAGES_PATH` (line 45). -/
def MESSAGES_PATH : String := "/app/data/messages.json"

/-- `os.path.isabs`: on the posix model a path is absolute iff it starts
with a slash. -/
def isAbs (p : String) : Bool := p.startsWith "/"

/-- `os.path.join(a, b)` for the cases the app uses (b relative). -/
def joinPath (a b : String) : String := a ++ "/" ++ b

/-- `os.path.basename`: the component after the last slash. -/
def basename (p : String) : String :=
  p.data.foldl (fun acc c => if c = '/' then "" else acc.push c) ""

/-! ### The message ledger (app_web.py lines 65-67, 113-163, 593-606)

`MESSAGES` is a list of dict-shaped records; the fields `trim_old_messages`
and `new_message` touch are modelled as a structure.  A media field that the
dict lacks or holds `""` is falsy in Python (`if path:`), so all three media
fields are plain strings with `""` standing for "absent".  The disk is a
list of existing file paths. -/

/-- One record of `MESSAGES` (the keys read by `trim_old_messages`,
`new_message` and `messages_list`). -/
structure MessageRec where
  message_id : Nat
  text : String
  created_at : Nat
  media_path : String
  media_original : String
  media_preview : String
deriving DecidableEq, Repr

/-- `MAX_MESSAGES = 120` (line 67). -/
def MAX_MESSAGES : Nat := 120

/-- The path `trim_old_messages` deletes for one media field: relative paths
are joined onto `DATA_DIR` (lines 147-150). -/
def resolveMediaPath (p : String) : String :=
  if isAbs p then p else joinPath DATA_DIR p

/-- The media paths one record owns, resolved; empty fields are skipped
(`if path:` on line 146). -/
def ownedMediaPaths (m : MessageRec) : List String :=
  ([m.media_path, m.media_original, m.media_preview].filter (fun s => s ≠ "")).map
    resolveMediaPath

/-- The media paths a list of records owns. -/
def allOwnedMediaPaths (ms : List MessageRec) : List String :=
  ms.flatMap ownedMediaPaths

/-- The filesystem as the set (list) of existing paths; `os.remove` on an
existing path removes it, on a missing path the `os.path.exists` guard makes
the call a no-op (lines 152-153). -/
def removeFile (fs : List String) (p : String) : List String :=
  fs.filter (fun q => q ≠ p)

/-- The per-record deletion loop of `trim_old_messages` (lines 143-156). -/
def deleteOwnedMedia (fs : List String) (ms : List MessageRec) : List String :=
  ms.foldl (fun acc m => (ownedMediaPaths m).foldl removeFile acc) fs

/-- In-memory ledger plus media storage: `MESSAGES` and the disk. -/
structure LedgerState where
  messages : List MessageRec
  fs : List String
deriving DecidableEq, Repr

/-- `trim_old_messages` (lines 132-160): when over `MAX_MESSAGES`, delete the
media of the prefix `MESSAGES[:-MAX_MESSAGES]` and keep the suffix
`MESSAGES[-MAX_MESSAGES:]`.  (`save_messages` persists the kept list; its
write discipline is modelled separately by `save_messages_run`.) -/
def trim_old_messages (st : LedgerState) : LedgerState :=
  if st.messages.length ≤ MAX_MESSAGES then st
  else
    let toDelete := st.messages.take (st.messages.length - MAX_MESSAGES)
    let keep := st.messages.drop (st.messages.length - MAX_MESSAGES)
    { messages := keep, fs := deleteOwnedMedia st.fs toDelete }

/-- `max((m["message_id"] for m in MESSAGES), default=0)` (line 594). -/
def maxMessageId (ms : List MessageRec) : Nat :=
  ms.foldl (fun acc m => max acc m.message_id) 0

/-- A successful append as `new_message` performs it (lines 593-606):
push the record, persist, then `trim_old_messages`.  The record is the
caller's; `new_message` instantiates it with empty media fields
(`new_message_record`). -/
def appendRecord (st : LedgerState) (r : MessageRec) : LedgerState :=
  trim_old_messages { st with messages := st.messages ++ [r] }

/-- The record `new_message` appends (lines 595-604): fresh id, the posted
text, `now` as timestamp, no media. -/
def new_message_record (ms : List MessageRec) (text : String) (now : Nat) :
    MessageRec :=
  { message_id := maxMessageId ms + 1
    text := text
    created_at := now
    media_path := ""
    media_original := ""
    media_preview := "" }

/-- A sequence of successful appends, each one running the eviction, as the
claims about the ledger quantify over. -/
def appendAll (st : LedgerState) (rs : List MessageRec) : LedgerState :=
  rs.foldl appendRecord st

/-! ### `save_messages` (app_web.py lines 126-129)

`save_messages` runs `os.makedirs(DATA_DIR, exist_ok=True)` and then opens
`MESSAGES_PATH` itself in `"w"` mode and `json.dump`s the ledger into it.
The persisted store maps a path to the record list its JSON encodes, and the
trace records each filesystem operation in order. -/

/-- A filesystem operation `save_messages` could perform. -/
inductive FsEvent
  | mkdirEvent (path : String)
  | writeEvent (path : String)
  | renameEvent (src dst : String)
deriving DecidableEq, Repr

/-- `os.rename`-style events, the marker of a write-temp-then-rename
discipline. -/
def isRenameEvent : FsEvent → Bool
  | .renameEvent _ _ => true
  | _ => false

/-- A `write` event to the given path. -/
def isWriteTo (p : String) : FsEvent → Bool
  | .writeEvent q => q = p
  | _ => false

/-- `save_messages` (lines 126-129): makedirs, then one direct
truncate-and-write of the target file.  Returns the updated store and the
trace of filesystem operations performed. -/
def save_messages_run (msgs : List MessageRec)
    (store : List (String × List MessageRec)) :
    (List (String × List MessageRec)) × List FsEvent :=
  ((MESSAGES_PATH, msgs) :: store.filter (fun kv => kv.1 ≠ MESSAGES_PATH),
   [FsEvent.mkdirEvent DATA_DIR, FsEvent.writeEvent MESSAGES_PATH])

/-! ### Geometry clamping (app_web.py lines 252-255 and 341-344) -/

/-- A requested rectangle; form values are arbitrary integers. -/
structure Rect where
  x : Int
  y : Int
  w : Int
  h : Int
deriving DecidableEq, Repr

/-- The image path's clamp (lines 252-255): origin into `[0, dim-1]`, size
into `[1, dim - origin]`. -/
def clampRectImage (w h : Int) (r : Rect) : Rect :=
  let bx := max 0 (min r.x (w - 1))
  let by_ := max 0 (min r.y (h - 1))
  let bw := max 1 (min r.w (w - bx))
  let bh := max 1 (min r.h (h - by_))
  ⟨bx, by_, bw, bh⟩

/-- The video path's clamp (lines 341-344): only lower bounds, the frame
dimensions are never consulted. -/
def clampRectVideo (r : Rect) : Rect :=
  ⟨max 0 r.x, max 0 r.y, max 1 r.w, max 1 r.h⟩

/-! ### Media environment (settings, disk, readable images) -/

/-- An image file `PIL.Image.open` succeeds on, with its pixel size. -/
structure ImgInfo where
  path : String
  width : Nat
  height : Nat
deriving DecidableEq, Repr

/-- What the media pipeline reads of the world: which paths exist
(`os.path.exists`), which of them open as images, and
`settings["watermark_image"]` (`""` = unset). -/
structure MediaEnv where
  files : List String
  images : List ImgInfo
  watermark_image : String
deriving DecidableEq, Repr

/-- `Image.open(p)`: `some` with the decoded size when `p` is a readable
image, `none` when opening raises. -/
def lookupImage (env : MediaEnv) (p : String) : Option ImgInfo :=
  env.images.find? (fun i => i.path == p)

/-- `get_watermark_path` (lines 181-186): the configured name joined onto
`APP_DATA_DIR`, or `None` when unset or the file does not exist. -/
def get_watermark_path (env : MediaEnv) : Option String :=
  if env.watermark_image = "" then none
  else
    let p := joinPath APP_DATA_DIR env.watermark_image
    if p ∈ env.files then some p else none

/-! ### Image redaction (app_web.py lines 229-309)

The pixel raster is abstracted: the embedding records, in order, which
compositing operations `process_image_blur_and_watermark` applies and with
what geometry.  Python float arithmetic (`int(w * 0.25)`,
`int(wm.height * ratio)`, `int(cx - new_w / 2)`) is modelled by exact
integer division; `0.25` is a power of two so `int(w * 0.25) = w / 4`
exactly, and the remaining truncations agree up to the sub-pixel rounding
no claim depends on. -/

/-- One compositing operation on the still image. -/
inductive ImgEdit
  | blurRegion (r : Rect)
  | pasteWatermark (x y : Int) (newW newH : Nat)
  | textStamp (txt : String)
deriving DecidableEq, Repr

/-- The result of the image pipeline: either the unchanged input path
(missing or unreadable source, lines 236-244 — returned normally, no
exception reaches the caller) or the new output path with the applied
edits. -/
inductive ImgResult
  | fallback (path : String)
  | processed (outPath : String) (edits : List ImgEdit)
deriving DecidableEq, Repr

/-- `int(w * 0.25)` (line 282): the corner watermark's target width. -/
def cornerMaxW (w : Nat) : Nat := w / 4

/-- `ratio = max_w / wm.width` (line 283): the scale factor applied to the
watermark in the default corner branch. -/
def cornerRatio (w wmW : Nat) : ℚ := (cornerMaxW w : ℚ) / (wmW : ℚ)

/-- The corner-anchored watermark paste (lines 282-287): resize to
`(max_w, wm.height * ratio)`, place at `(w - new_w - 20, h - new_h - 20)`. -/
def cornerPaste (w h : Nat) (wm : ImgInfo) : ImgEdit :=
  let newW := cornerMaxW w
  let newH := (wm.height * cornerMaxW w) / wm.width
  ImgEdit.pasteWatermark ((w : Int) - newW - 20) ((h : Int) - newH - 20) newW newH

/-- The explicitly centered watermark paste (lines 270-280): size at least
10, scale by `size / max(wm.width, wm.height)`, center at `(cx, cy)`,
clamp into the frame. -/
def centerPaste (w h : Nat) (wm : ImgInfo) (cx cy size : Int) : ImgEdit :=
  let size' := (max 10 size).toNat
  let maxDim := max wm.width wm.height
  let newW := (wm.width * size') / maxDim
  let newH := (wm.height * size') / maxDim
  let x0 := cx - (newW : Int) / 2
  let y0 := cy - (newH : Int) / 2
  ImgEdit.pasteWatermark (max 0 (min x0 ((w : Int) - newW)))
    (max 0 (min y0 ((h : Int) - newH))) newW newH

/-- The blur stage (lines 248-258): only when `blur` is set and a rectangle
was supplied — the comment in the source says explicitly there is no
full-frame fallback. -/
def imageBlurEdits (w h : Nat) (blur : Bool) (blur_rect : Option Rect) :
    List ImgEdit :=
  if blur then
    match blur_rect with
    | some r => [ImgEdit.blurRegion (clampRectImage (w : Int) (h : Int) r)]
    | none => []
  else []

/-- The watermark stage (lines 265-303): with a configured and existing
asset, paste it (centered or corner-anchored); when opening the asset raises,
the inner `except` only logs (no edit); with no asset, draw the fallback
text stamp `"PASIFLONET"`. -/
def imageWmEdits (env : MediaEnv) (w h : Nat) (add_wm : Bool)
    (wm_rect : Option (Int × Int × Int)) : List ImgEdit :=
  if add_wm then
    match get_watermark_path env with
    | some wmp =>
      match lookupImage env wmp with
      | some wm =>
        match wm_rect with
        | some (cx, cy, size) => [centerPaste w h wm cx cy size]
        | none => [cornerPaste w h wm]
      | none => []
    | none => [ImgEdit.textStamp "PASIFLONET"]
  else []

/-- `process_image_blur_and_watermark` (lines 229-309). -/
def process_image_blur_and_watermark (env : MediaEnv) (input : String)
    (blur add_wm : Bool) (blur_rect : Option Rect)
    (wm_rect : Option (Int × Int × Int)) : ImgResult :=
  if input ∈ env.files then
    match lookupImage env input with
    | none => .fallback input
    | some im =>
      .processed (joinPath TEMP_DIR ("blurwm_" ++ basename input))
        (imageBlurEdits im.width im.height blur blur_rect ++
          imageWmEdits env im.width im.height add_wm wm_rect)
  else .fallback input

/-! ### Video redaction (app_web.py lines 316-410)

The FFmpeg filter graph is embedded structurally: the optional
crop+gblur+overlay stage and the optional scale+overlay watermark stage
with the numbers the source computes for them. -/

/-- The planned filter graph: the blur stage's rectangle (crop + gblur +
overlay back at the same coordinates, lines 364-369) and the watermark
stage's `(wsize, wmx, wmy)` (scale to `wsize` wide, overlay at
`(wmx, wmy)`, lines 375-379). -/
structure VideoPlan where
  blurStage : Option Rect
  wmStage : Option (Int × Int × Int)
deriving DecidableEq, Repr

/-- The result of the video pipeline: the unchanged input path with no
transcoder run (missing input, line 323-325, or nothing to do, line
334-335), or an FFmpeg invocation writing `outPath` from `inputs` with the
planned graph. -/
inductive VideoResult
  | passthrough (path : String)
  | transcode (outPath : String) (plan : VideoPlan) (inputs : List String)
deriving DecidableEq, Repr

/-- `process_video_blur_and_watermark` (lines 316-410).  The external
process's own success or failure is outside the embedding; `transcode`
stands for the invocation the code issues. -/
def process_video_blur_and_watermark (env : MediaEnv) (input : String)
    (blur add_wm : Bool) (blur_rect : Option Rect)
    (wm_rect : Option (Int × Int × Int)) : VideoResult :=
  if input ∈ env.files then
    let wm_path := if add_wm then get_watermark_path env else none
    if ¬ blur ∧ wm_path = none then .passthrough input
    else
      let blurStage : Option Rect :=
        if blur then blur_rect.map clampRectVideo else none
      let wmStage : Option (Int × Int × Int) :=
        match wm_path, wm_rect with
        | some _, some (wx, wy, ws) =>
          let wsize := max 16 ws
          some (wsize, max 0 (wx - wsize / 2), max 0 (wy - wsize / 2))
        | _, _ => none
      let inputs : List String :=
        match wm_path, wm_rect with
        | some p, some _ => [input, p]
        | _, _ => [input]
      .transcode (joinPath TEMP_DIR ("blurwm_" ++ basename input))
        ⟨blurStage, wmStage⟩ inputs
  else .passthrough input

/-- Whether the image run blurred anything. -/
def imageBlurOccurs : ImgResult → Bool
  | .fallback _ => false
  | .processed _ edits =>
    edits.any (fun e => match e with | .blurRegion _ => true | _ => false)

/-- Whether the planned video run blurs anything. -/
def videoBlurOccurs : VideoResult → Bool
  | .passthrough _ => false
  | .transcode _ plan _ => plan.blurStage.isSome

/-! ### Telegram session handling (app_web.py lines 193-222, 690-722) -/

/-- The settings fields the session code reads (`""` = unset/falsy). -/
structure TgSettings where
  api_id : String
  api_hash : String
  phone : String
  session : String
deriving DecidableEq, Repr

/-- A network / client-lifecycle action of the session code, in the order
performed. -/
inductive TgEvent
  | connect
  | checkAuthorized
  | sendCodeRequest
  | signInCall
  | saveSession
  | disconnect
  | discardClient
deriving DecidableEq, BEq, Repr

/-- How `ensure_tg_client` ends. -/
inductive EnsureResult
  | alreadyConnected
  | configError
  | apiIdNotInt
  | notAuthorized
  | ready
deriving DecidableEq, Repr

/-- `ensure_tg_client` (lines 193-222): reuse a connected client, else fail
on missing credentials or session *before any network call*, else parse the
api id, connect with the persisted `StringSession` and check authorization.
`authorized` is the remote side's answer.  Returns the network events
performed and the outcome; a non-`ready`, non-`alreadyConnected` outcome is
a raised `RuntimeError`. -/
def ensure_tg_client (connected : Bool) (s : TgSettings) (authorized : Bool) :
    List TgEvent × EnsureResult :=
  if connected then ([], .alreadyConnected)
  else if s.api_id = "" ∨ s.api_hash = "" ∨ s.session = "" then ([], .configError)
  else if (s.api_id.toInt?).isNone then ([], .apiIdNotInt)
  else if authorized then ([.connect, .checkAuthorized], .ready)
  else ([.connect, .checkAuthorized], .notAuthorized)

/-- What the remote side answers to `sign_in`. -/
inductive SignInOutcome
  | success
  | passwordNeeded
  | codeInvalid
  | codeExpired
deriving DecidableEq, Repr

/-- How `do_login` ends (every `err…` case is a raised `RuntimeError`). -/
inductive LoginResult
  | ok
  | errNoClient
  | errPasswordNeeded
  | errCodeInvalid
  | errCodeExpired
deriving DecidableEq, Repr

/-- `do_login` (lines 690-722): with no pending login client, raise before
doing anything; otherwise `sign_in`, and on success save the session string
into the settings store (`settings["session"] = …; save_settings`) and only
then disconnect and discard the in-process client.  `token` is the session
string `login_client.session.save()` returns.  Returns the event trace, the
outcome and the settings as left behind. -/
def do_login (hasLoginClient : Bool) (outcome : SignInOutcome) (token : String)
    (s : TgSettings) : List TgEvent × LoginResult × TgSettings :=
  if hasLoginClient then
    match outcome with
    | .success =>
      ([.signInCall, .saveSession, .disconnect, .discardClient], .ok,
        { s with session := token })
    | .passwordNeeded => ([.signInCall], .errPasswordNeeded, s)
    | .codeInvalid => ([.signInCall], .errCodeInvalid, s)
    | .codeExpired =>
      ([.signInCall, .disconnect, .discardClient], .errCodeExpired, s)
  else ([], .errNoClient, s)

/-! ### The `/new` POST flow (app_web.py lines 559-611) -/

/-- The application state `new_message` touches. -/
structure AppState where
  connected : Bool
  settings : TgSettings
  ledger : LedgerState
deriving DecidableEq, Repr

/-- The form fields of the `/new` POST. -/
structure NewMsgForm where
  text : String
  translate_he : Bool
  send_tg : Bool
  send_fb : Bool
deriving DecidableEq, Repr

/-- Where the POST handler redirects. -/
inductive PostOutcome
  | errorRedirect
  | savedRedirect
deriving DecidableEq, Repr

/-- `new_message` POST (lines 561-609): translate if asked (external call,
abstracted by `translate`; on its failure the text is left unchanged, which
`translate := id` represents), then run `ensure_tg_client` synchronously —
on any of its errors, flash and redirect back *without touching the ledger*.
Otherwise schedule the dispatch on the loop (fire and forget) and append a
text-only record to the ledger, save, trim.  Returns the new state, the
redirect taken, and the telegram events the synchronous part performed. -/
def new_message_post (st : AppState) (form : NewMsgForm)
    (translate : String → String) (authorized : Bool) (now : Nat) :
    AppState × PostOutcome × List TgEvent :=
  let text := if form.translate_he ∧ form.text ≠ "" then translate form.text
    else form.text
  let init := ensure_tg_client st.connected st.settings authorized
  match init.2 with
  | .configError => (st, .errorRedirect, init.1)
  | .apiIdNotInt => (st, .errorRedirect, init.1)
  | .notAuthorized => (st, .errorRedirect, init.1)
  | _ =>
    let newRec := new_message_record st.ledger.messages text now
    ({ st with connected := true, ledger := appendRecord st.ledger newRec },
      .savedRedirect, init.1)

/-! ### Concrete fixtures used by closed evaluations -/

/-- An empty disk with no watermark configured. -/
def noFilesEnv : MediaEnv := { files := [], images := [], watermark_image := "" }

/-- One readable 640×480 image on disk; no watermark configured. -/
def oneImageEnv : MediaEnv :=
  { files := ["/app/data/media/a.jpg"],
    images := [⟨"/app/data/media/a.jpg", 640, 480⟩],
    watermark_image := "" }

/-- Credentials set but no persisted session, no connected client, empty
ledger. -/
def emptySessionState : AppState :=
  { connected := false
    settings := { api_id := "123", api_hash := "abc", phone := "", session := "" }
    ledger := { messages := [], fs := [] } }

/-- A text-only submission asking for a Telegram send. -/
def helloForm : NewMsgForm :=
  { text := "hello", translate_he := false, send_tg := true, send_fb := false }

/-- A media-less record, as `new_message` creates. -/
def blankRecord : MessageRec :=
  { message_id := 7, text := "hi", created_at := 3,
    media_path := "", media_original := "", media_preview := "" }

/-- `MAX_MESSAGES + 5` identical appends. -/
def witnessRun : List MessageRec := List.replicate 125 blankRecord

/-! ## Helper lemmas about the ledger -/

/-- `trim_old_messages` keeps exactly the suffix past the overflow. -/
theorem trim_messages_eq (st : LedgerState) :
    (trim_old_messages st).messages =
      st.messages.drop (st.messages.length - MAX_MESSAGES) := by
  unfold trim_old_messages
  split
  · next h => rw [Nat.sub_eq_zero_of_le h, List.drop_zero]
  · rfl

/-- `trim_old_messages` deletes exactly the overflow prefix's media. -/
theorem trim_fs_eq (st : LedgerState) :
    (trim_old_messages st).fs =
      deleteOwnedMedia st.fs
        (st.messages.take (st.messages.length - MAX_MESSAGES)) := by
  unfold trim_old_messages
  split
  · next h => rw [Nat.sub_eq_zero_of_le h, List.take_zero]; rfl
  · rfl

/-- Membership after removing one file. -/
theorem mem_removeFile (fs : List String) (p q : String) :
    p ∈ removeFile fs q ↔ p ∈ fs ∧ p ≠ q := by
  simp [removeFile]

/-- Membership after removing a list of files. -/
theorem mem_foldl_removeFile (ps : List String) (fs : List String) (p : String) :
    p ∈ ps.foldl removeFile fs ↔ p ∈ fs ∧ p ∉ ps := by
  induction ps generalizing fs with
  | nil => simp
  | cons q qs ih =>
    rw [List.foldl_cons, ih, mem_removeFile]
    simp only [List.mem_cons]
    tauto

/-- Membership after the eviction loop's per-record deletions. -/
theorem mem_deleteOwnedMedia (ms : List MessageRec) (fs : List String)
    (p : String) :
    p ∈ deleteOwnedMedia fs ms ↔ p ∈ fs ∧ p ∉ allOwnedMediaPaths ms := by
  induction ms generalizing fs with
  | nil => simp [deleteOwnedMedia, allOwnedMediaPaths]
  | cons m ms ih =>
    show p ∈ deleteOwnedMedia ((ownedMediaPaths m).foldl removeFile fs) ms ↔ _
    rw [ih, mem_foldl_removeFile]
    simp only [allOwnedMediaPaths, List.flatMap_cons, List.mem_append]
    have hms : allOwnedMediaPaths ms = ms.flatMap ownedMediaPaths := rfl
    rw [hms] at *
    tauto

/-- Owned media paths distribute over append. -/
theorem allOwned_append (a b : List MessageRec) :
    allOwnedMediaPaths (a ++ b) =
      allOwnedMediaPaths a ++ allOwnedMediaPaths b := by
  simp [allOwnedMediaPaths]

/-- One append keeps the suffix of the pushed list past the overflow. -/
theorem appendRecord_messages (st : LedgerState) (r : MessageRec) :
    (appendRecord st r).messages =
      (st.messages ++ [r]).drop (st.messages.length + 1 - MAX_MESSAGES) := by
  unfold appendRecord
  rw [trim_messages_eq]
  simp

/-- The ledger size after one append. -/
theorem appendRecord_length (st : LedgerState) (r : MessageRec) :
    (appendRecord st r).messages.length =
      min (st.messages.length + 1) MAX_MESSAGES := by
  rw [appendRecord_messages]
  simp
  omega

/-- One append never leaves more than `MAX_MESSAGES` records. -/
theorem appendRecord_le_max (st : LedgerState) (r : MessageRec) :
    (appendRecord st r).messages.length ≤ MAX_MESSAGES := by
  rw [appendRecord_length]; omega

/-- The disk after one append: exactly the evicted prefix's media is gone. -/
theorem appendRecord_fs (st : LedgerState) (r : MessageRec) (p : String) :
    p ∈ (appendRecord st r).fs ↔
      p ∈ st.fs ∧ p ∉ allOwnedMediaPaths
        ((st.messages ++ [r]).take (st.messages.length + 1 - MAX_MESSAGES)) := by
  unfold appendRecord
  rw [trim_fs_eq, mem_deleteOwnedMedia]
  simp

/-- A run of appends from a within-bounds state: the ledger is the suffix of
all pushed records past the overflow, and the disk has lost exactly the media
owned by the evicted prefix. -/
theorem appendAll_spec (rs : List MessageRec) : ∀ (st : LedgerState),
    st.messages.length ≤ MAX_MESSAGES →
    ((appendAll st rs).messages =
      (st.messages ++ rs).drop (st.messages.length + rs.length - MAX_MESSAGES) ∧
     ∀ p, p ∈ (appendAll st rs).fs ↔
       p ∈ st.fs ∧ p ∉ allOwnedMediaPaths
         ((st.messages ++ rs).take
           (st.messages.length + rs.length - MAX_MESSAGES))) := by
  induction rs with
  | nil =>
    intro st h
    refine ⟨?_, fun p => ?_⟩
    · show st.messages = _
      simp only [List.append_nil, List.length_nil, Nat.add_zero]
      rw [Nat.sub_eq_zero_of_le h, List.drop_zero]
    · show p ∈ st.fs ↔ _
      simp only [List.append_nil, List.length_nil, Nat.add_zero]
      rw [Nat.sub_eq_zero_of_le h, List.take_zero]
      simp [allOwnedMediaPaths]
  | cons r rs ih =>
    intro st h
    have hstep : appendAll st (r :: rs) = appendAll (appendRecord st r) rs := rfl
    have hle := appendRecord_le_max st r
    obtain ⟨ihm, ihf⟩ := ih (appendRecord st r) hle
    have hlen := appendRecord_length st r
    have hmsg := appendRecord_messages st r
    have hd1 : st.messages.length + 1 - MAX_MESSAGES ≤
        (st.messages ++ [r]).length := by
      simp only [List.length_append, List.length_singleton]
      omega
    set d1 := st.messages.length + 1 - MAX_MESSAGES with hd1def
    set d2 := (appendRecord st r).messages.length + rs.length - MAX_MESSAGES
      with hd2def
    have hX : st.messages ++ (r :: rs) = (st.messages ++ [r]) ++ rs := by simp
    have happ : (appendRecord st r).messages ++ rs =
        ((st.messages ++ [r]) ++ rs).drop d1 := by
      rw [hmsg, List.drop_append_of_le_length hd1]
    have hidx : d1 + d2 =
        st.messages.length + (r :: rs).length - MAX_MESSAGES := by
      simp only [List.length_cons, hd1def, hd2def, hlen]
      omega
    have hT : ((st.messages ++ [r]) ++ rs).take (d1 + d2) =
        (st.messages ++ [r]).take d1 ++
          (((st.messages ++ [r]) ++ rs).drop d1).take d2 := by
      rw [List.take_add, List.take_append_of_le_length hd1]
    constructor
    · rw [hstep, ihm, happ, List.drop_drop, hX, hidx]
    · intro p
      rw [hstep, ihf p, appendRecord_fs, happ, hX, ← hidx, hT]
      rw [allOwned_append, List.mem_append]
      simp only [not_or]
      exact and_assoc

/-! ## Helper lemmas about the media paths -/

/-- The watermark stage of the image path never blurs. -/
theorem imageWmEdits_no_blur (env : MediaEnv) (w h : Nat) (add_wm : Bool)
    (wrect : Option (Int × Int × Int)) :
    (imageWmEdits env w h add_wm wrect).any
      (fun e => match e with | .blurRegion _ => true | _ => false) = false := by
  unfold imageWmEdits
  split
  · split
    · split
      · split <;> simp [centerPaste, cornerPaste]
      · rfl
    · rfl
  · rfl

/-- `ensure_tg_client` never performs a handshake step: it only connects
with the persisted session and checks authorization. -/
theorem ensure_no_handshake (c : Bool) (s : TgSettings) (auth : Bool) :
    TgEvent.signInCall ∉ (ensure_tg_client c s auth).1 ∧
    TgEvent.sendCodeRequest ∉ (ensure_tg_client c s auth).1 := by
  unfold ensure_tg_client
  split
  · simp
  · split
    · simp
    · split
      · simp
      · split <;> simp

/-! ## The claims -/

/-- C1 (confirmed).  For every sequence of appends (here: any run of
`MAX_MESSAGES + 5` records with nondecreasing `created_at` whose evicted
records own no path also owned by a survivor), starting from an empty
ledger: every intermediate ledger holds at most `MAX_MESSAGES = 120`
records; after all `125` appends exactly the last `120` remain; the `5`
removed records are the oldest by `created_at`; every media path owned by a
removed record is gone from storage; and a surviving record's paths are on
disk exactly as they were before the run. -/
theorem C1_ledger_bounded_eviction (rs : List MessageRec) (fs0 : List String)
    (hlen : rs.length = MAX_MESSAGES + 5)
    (hmono : rs.Pairwise (fun a b => a.created_at ≤ b.created_at))
    (hdisj : ∀ p, p ∈ allOwnedMediaPaths (rs.take 5) →
      p ∉ allOwnedMediaPaths (rs.drop 5)) :
    (∀ n, ((appendAll ⟨[], fs0⟩ (rs.take n)).messages).length ≤ MAX_MESSAGES) ∧
    (appendAll ⟨[], fs0⟩ rs).messages = rs.drop 5 ∧
    (∀ a ∈ rs.take 5, ∀ b ∈ rs.drop 5, a.created_at ≤ b.created_at) ∧
    (∀ p ∈ allOwnedMediaPaths (rs.take 5), p ∉ (appendAll ⟨[], fs0⟩ rs).fs) ∧
    (∀ p ∈ allOwnedMediaPaths (rs.drop 5),
      (p ∈ (appendAll ⟨[], fs0⟩ rs).fs ↔ p ∈ fs0)) := by
  have h0 : (LedgerState.mk [] fs0).messages.length ≤ MAX_MESSAGES := by simp
  have h5 : rs.length - MAX_MESSAGES = 5 := by omega
  obtain ⟨hm, hf⟩ := appendAll_spec rs ⟨[], fs0⟩ h0
  simp only [List.nil_append, List.length_nil, Nat.zero_add] at hm hf
  rw [h5] at hm hf
  refine ⟨?_, hm, ?_, ?_, ?_⟩
  · intro n
    obtain ⟨hm2, -⟩ := appendAll_spec (rs.take n) ⟨[], fs0⟩ h0
    rw [hm2]
    simp only [List.nil_append, List.length_nil, Nat.zero_add, List.length_drop]
    omega
  · have hpw := (List.pairwise_append.mp
      (by rw [List.take_append_drop 5 rs]; exact hmono))
    exact hpw.2.2
  · intro p hp
    rw [hf p]
    rintro ⟨-, hno⟩
    exact hno hp
  · intro p hp
    rw [hf p]
    constructor
    · rintro ⟨h1, -⟩; exact h1
    · intro h1
      exact ⟨h1, fun hmem => hdisj p hmem hp⟩

/-- C1, witnessed at a concrete run of 125 media-less records: exactly the
last 120 remain, and an intermediate prefix is within bounds. -/
theorem C1_ledger_bounded_eviction_witness :
    (appendAll ⟨[], []⟩ witnessRun).messages = witnessRun.drop 5 ∧
    ((appendAll ⟨[], []⟩ (witnessRun.take 121)).messages).length ≤
      MAX_MESSAGES :=
  have h1 : witnessRun.length = MAX_MESSAGES + 5 := by
    rw [witnessRun, List.length_replicate, MAX_MESSAGES]
  have h2 : witnessRun.Pairwise (fun a b => a.created_at ≤ b.created_at) := by
    rw [witnessRun, List.pairwise_replicate]
    exact Or.inr le_rfl
  have h3 : ∀ p, p ∈ allOwnedMediaPaths (witnessRun.take 5) →
      p ∉ allOwnedMediaPaths (witnessRun.drop 5) := by
    intro p hp
    have he : allOwnedMediaPaths (witnessRun.take 5) = [] := by
      rw [witnessRun, List.take_replicate]
      decide
    rw [he] at hp
    cases hp
  ⟨(C1_ledger_bounded_eviction witnessRun [] h1 h2 h3).2.1,
    (C1_ledger_bounded_eviction witnessRun [] h1 h2 h3).1 121⟩

/-- C2 (corrected).  The claim held only for the image path: for every
frame of size at least 1×1 and every requested rectangle, the image path's
clamp returns a rectangle fully inside the frame with positive size; the
video path's clamp enforces only the lower bounds `x ≥ 0`, `y ≥ 0`,
`w ≥ 1`, `h ≥ 1` — it never consults the frame size, so its output can
extend past the frame (see the counterexample). -/
theorem C2_clamp_rect_amended (w h : Int) (r : Rect) (hw : 1 ≤ w)
    (hh : 1 ≤ h) :
    (0 ≤ (clampRectImage w h r).x ∧ 0 ≤ (clampRectImage w h r).y ∧
      (clampRectImage w h r).x + (clampRectImage w h r).w ≤ w ∧
      (clampRectImage w h r).y + (clampRectImage w h r).h ≤ h ∧
      1 ≤ (clampRectImage w h r).w ∧ 1 ≤ (clampRectImage w h r).h) ∧
    (0 ≤ (clampRectVideo r).x ∧ 0 ≤ (clampRectVideo r).y ∧
      1 ≤ (clampRectVideo r).w ∧ 1 ≤ (clampRectVideo r).h) := by
  simp only [clampRectImage, clampRectVideo]
  omega

/-- C2, witnessed on a 100×80 frame with a negative-origin, zero-size
request: the image clamp stays inside the frame. -/
theorem C2_clamp_rect_witness :
    (1 : Int) ≤ 100 ∧ (1 : Int) ≤ 80 ∧
    0 ≤ (clampRectImage 100 80 ⟨-5, -7, 0, 0⟩).x ∧
    (clampRectImage 100 80 ⟨-5, -7, 0, 0⟩).x +
      (clampRectImage 100 80 ⟨-5, -7, 0, 0⟩).w ≤ 100 :=
  ⟨by decide, by decide,
    (C2_clamp_rect_amended 100 80 ⟨-5, -7, 0, 0⟩ (by decide) (by decide)).1.1,
    (C2_clamp_rect_amended 100 80 ⟨-5, -7, 0, 0⟩ (by decide)
      (by decide)).1.2.2.1⟩

/-- C2, refuted as stated: on a frame of width 100 (and any height ≥ 1) the
video path's clamp maps the out-of-frame request (110, 0, 5, 5) to itself,
so `x' + w' = 115 > 100` — not a rectangle inside the frame. -/
theorem C2_video_clamp_escapes_frame :
    (1 : Int) ≤ 100 ∧
    (clampRectVideo ⟨110, 0, 5, 5⟩).x + (clampRectVideo ⟨110, 0, 5, 5⟩).w >
      (100 : Int) := by
  decide

/-- C3 (corrected).  With no connected client and no persisted session,
`new_message`'s POST handler does fail fast on `ensure_tg_client`'s
configuration error and performs no network event — but it then redirects
back immediately, so the ledger gains *no* record (the claim expected
exactly one). -/
theorem C3_config_error_aborts_post (st : AppState) (form : NewMsgForm)
    (translate : String → String) (authorized : Bool) (now : Nat)
    (hc : st.connected = false) (hs : st.settings.session = "") :
    new_message_post st form translate authorized now =
      (st, PostOutcome.errorRedirect, []) := by
  unfold new_message_post ensure_tg_client
  simp [hc, hs]

/-- C3, witnessed at the concrete empty-session state and the "hello"
form. -/
theorem C3_config_error_aborts_post_witness :
    new_message_post emptySessionState helloForm id true 0 =
      (emptySessionState, PostOutcome.errorRedirect, []) :=
  C3_config_error_aborts_post emptySessionState helloForm id true 0
    (by decide) (by decide)

/-- C3, refuted as stated: submitting text "hello" with `send_tg` set and no
session leaves the ledger with as many records as before (zero), not one
more; the handler redirects with the error and contacted no network. -/
theorem C3_no_record_on_config_error :
    ((new_message_post emptySessionState helloForm id true 0).1.ledger.messages.length ≠
      emptySessionState.ledger.messages.length + 1) ∧
    (new_message_post emptySessionState helloForm id true 0).2.1 =
      PostOutcome.errorRedirect ∧
    (new_message_post emptySessionState helloForm id true 0).2.2 = [] := by
  decide

/-- C4 (corrected).  A missing or unreadable source image does not raise a
propagated error: `process_image_blur_and_watermark` logs and returns the
input path unchanged (the `fallback` result), and no output file is
written.  Only the "no partial output" half of the claim holds. -/
theorem C4_unreadable_image_fallback (env : MediaEnv) (input : String)
    (blur add_wm : Bool) (brect : Option Rect)
    (wrect : Option (Int × Int × Int))
    (h : input ∉ env.files ∨ lookupImage env input = none) :
    process_image_blur_and_watermark env input blur add_wm brect wrect =
      ImgResult.fallback input := by
  unfold process_image_blur_and_watermark
  rcases h with h | h
  · simp [h]
  · by_cases hf : input ∈ env.files
    · simp [hf, h]
    · simp [hf]

/-- C4, witnessed at a nonexistent path on an empty disk. -/
theorem C4_unreadable_image_fallback_witness :
    process_image_blur_and_watermark noFilesEnv "missing.jpg" true true none
      none = ImgResult.fallback "missing.jpg" :=
  C4_unreadable_image_fallback noFilesEnv "missing.jpg" true true none none
    (Or.inl (by decide))

/-- C4, refuted as stated: redacting a nonexistent image with a blur region
returns the input path as an ordinary (non-error) result — nothing is
propagated to the caller, who cannot distinguish this from success. -/
theorem C4_missing_image_no_error :
    process_image_blur_and_watermark noFilesEnv "/app/data/media/v.jpg" true
      true (some ⟨1, 1, 5, 5⟩) none =
      ImgResult.fallback "/app/data/media/v.jpg" := by
  decide

/-- C5 (corrected).  With the watermark asset missing from storage, the
*video* path does silently skip watermarking (the run is identical to one
with watermarking not requested), but the *image* path composites the
fallback text stamp "PASIFLONET" on top of the blur-only edits instead of
skipping. -/
theorem C5_missing_watermark_amended (env : MediaEnv) (input : String)
    (blur : Bool) (brect : Option Rect) (wrect : Option (Int × Int × Int))
    (hwm : get_watermark_path env = none) :
    process_video_blur_and_watermark env input blur true brect wrect =
      process_video_blur_and_watermark env input blur false brect wrect ∧
    (∀ im, input ∈ env.files → lookupImage env input = some im →
      process_image_blur_and_watermark env input blur true brect wrect =
        ImgResult.processed (joinPath TEMP_DIR ("blurwm_" ++ basename input))
          (imageBlurEdits im.width im.height blur brect ++
            [ImgEdit.textStamp "PASIFLONET"])) := by
  constructor
  · unfold process_video_blur_and_watermark
    simp [hwm]
  · intro im hf him
    unfold process_image_blur_and_watermark
    simp [hf, him, imageWmEdits, hwm]

/-- C5, witnessed on the video path: with no watermark configured, a blurred
video run is identical whether or not watermarking was requested. -/
theorem C5_missing_watermark_witness :
    process_video_blur_and_watermark oneImageEnv "/app/data/media/a.jpg" true
      true (some ⟨0, 0, 10, 10⟩) none =
    process_video_blur_and_watermark oneImageEnv "/app/data/media/a.jpg" true
      false (some ⟨0, 0, 10, 10⟩) none :=
  (C5_missing_watermark_amended oneImageEnv "/app/data/media/a.jpg" true
    (some ⟨0, 0, 10, 10⟩) none (by decide)).1

/-- C5, refuted as stated on the image path: with the watermark asset
missing, requesting a watermark changes the output (a text stamp is
composited), so the output does not equal the blur-only result. -/
theorem C5_image_path_text_stamp :
    process_image_blur_and_watermark oneImageEnv "/app/data/media/a.jpg" false
      true none none ≠
    process_image_blur_and_watermark oneImageEnv "/app/data/media/a.jpg" false
      false none none := by
  decide

/-- C6 (corrected).  Every ledger mutation persists through `save_messages`,
which performs a single direct truncate-and-write of `MESSAGES_PATH` (after
`makedirs`) — the full ledger is rewritten, but there is no
write-to-temporary-then-rename step, so a crash mid-write can leave a
partial file. -/
theorem C6_ledger_write_direct (msgs : List MessageRec)
    (store : List (String × List MessageRec)) :
    (save_messages_run msgs store).2 =
      [FsEvent.mkdirEvent DATA_DIR, FsEvent.writeEvent MESSAGES_PATH] ∧
    ((save_messages_run msgs store).2.all (fun e => !isRenameEvent e)) = true ∧
    ((save_messages_run msgs store).1.find? (fun kv => kv.1 == MESSAGES_PATH)) =
      some (MESSAGES_PATH, msgs) := by
  refine ⟨rfl, rfl, ?_⟩
  simp [save_messages_run]

/-- C6, refuted as stated: the write trace of `save_messages` holds no
rename at all, and the write it performs targets the ledger path itself —
not a temporary file. -/
theorem C6_no_rename_event :
    ((save_messages_run [] []).2.filter isRenameEvent) = [] ∧
    ((save_messages_run [] []).2.any (isWriteTo MESSAGES_PATH)) = true := by
  decide

/-- C7 (confirmed).  When blur is requested but no region is supplied, the
image path and the video path agree: neither blurs anything (the image path
adds no blur edit, the video plan has no blur stage), for every
environment, input, watermark flag and watermark rectangle. -/
theorem C7_no_region_no_blur_agree (env : MediaEnv) (input : String)
    (add_wm : Bool) (wrect : Option (Int × Int × Int)) :
    imageBlurOccurs
      (process_image_blur_and_watermark env input true add_wm none wrect) =
        false ∧
    videoBlurOccurs
      (process_video_blur_and_watermark env input true add_wm none wrect) =
        false := by
  constructor
  · unfold process_image_blur_and_watermark
    split
    · split
      · rfl
      · simp [imageBlurOccurs, imageBlurEdits, imageWmEdits_no_blur]
    · rfl
  · unfold process_video_blur_and_watermark
    split
    · split
      · rfl
      · simp [videoBlurOccurs]
    · rfl

/-- C8 (corrected).  In the default corner branch the scale factor is
`int(w * 0.25) / wm.width`, which is at most 1 exactly when the overlay's
native width is at least a quarter of the base width — the code happily
upscales a smaller overlay (see the counterexample), so "never upscaled" is
false in general. -/
theorem C8_corner_scale_iff (w wmW : Nat) (h : 1 ≤ wmW) :
    cornerRatio w wmW ≤ 1 ↔ cornerMaxW w ≤ wmW := by
  have hb : (0 : ℚ) < (wmW : ℚ) := by exact_mod_cast h
  rw [cornerRatio, div_le_one hb]
  exact Nat.cast_le

/-- C8, witnessed: a 300px-wide overlay on a 1000px-wide base is scaled
down (ratio ≤ 1). -/
theorem C8_corner_scale_witness : cornerRatio 1000 300 ≤ 1 :=
  (C8_corner_scale_iff 1000 300 (by decide)).mpr (by decide)

/-- C8, refuted as stated: a 100px-wide overlay on a 1000px-wide base gets
scale factor 250/100 = 5/2 > 1 — upscaled beyond native resolution. -/
theorem C8_watermark_upscaled : (1 : ℚ) < cornerRatio 1000 100 := by
  norm_num [cornerRatio, cornerMaxW]

/-- C9 (confirmed).  A successful `do_login` run signs in, saves the session
token into the settings store, and only afterwards disconnects and discards
the in-process client (positions 1 < 2 < 3 in the trace); the settings
leave with the token persisted.  And `ensure_tg_client` — the path every
later dispatch takes — never re-runs a handshake step (no code request, no
sign-in), for any state. -/
theorem C9_token_saved_before_discard (token : String) (s : TgSettings)
    (c auth : Bool) (s2 : TgSettings) :
    (do_login true SignInOutcome.success token s).1 =
      [TgEvent.signInCall, TgEvent.saveSession, TgEvent.disconnect,
        TgEvent.discardClient] ∧
    (do_login true SignInOutcome.success token s).1.indexOf
      TgEvent.saveSession = 1 ∧
    (do_login true SignInOutcome.success token s).1.indexOf
      TgEvent.disconnect = 2 ∧
    (do_login true SignInOutcome.success token s).1.indexOf
      TgEvent.discardClient = 3 ∧
    ((do_login true SignInOutcome.success token s).2.2).session = token ∧
    TgEvent.signInCall ∉ (ensure_tg_client c s2 auth).1 ∧
    TgEvent.sendCodeRequest ∉ (ensure_tg_client c s2 auth).1 :=
  ⟨rfl, rfl, rfl, rfl, rfl, (ensure_no_handshake c s2 auth).1,
    (ensure_no_handshake c s2 auth).2⟩

/-- C10 (confirmed).  For an existing video input with blur not requested
and no watermark file configured and present, the video pipeline returns
the input path unchanged: no filter graph is built, no transcoder is
invoked, no output file is written. -/
theorem C10_video_passthrough (env : MediaEnv) (input : String)
    (add_wm : Bool) (brect : Option Rect) (wrect : Option (Int × Int × Int))
    (hf : input ∈ env.files) (hwm : get_watermark_path env = none) :
    process_video_blur_and_watermark env input false add_wm brect wrect =
      VideoResult.passthrough input := by
  unfold process_video_blur_and_watermark
  cases add_wm <;> simp [hf, hwm]

/-- C10, witnessed at the concrete one-file environment. -/
theorem C10_video_passthrough_witness :
    process_video_blur_and_watermark oneImageEnv "/app/data/media/a.jpg" false
      true none none = VideoResult.passthrough "/app/data/media/a.jpg" :=
  C10_video_passthrough oneImageEnv "/app/data/media/a.jpg" true none none
    (by decide) (by decide)

end Pasi
